import Mathlib

/-!
Verification development for the F1-Prediction-Model repository.

The repository is a small data-collection pipeline plus a read-only web
dashboard.  This file gives a shallow embedding of the parts of the code
that the verified properties talk about:

* `src/src/ergast_data_collector.py` — the Ergast HTTP client
  (`make_request`) and the five per-domain collectors;
* `src/src/weather_data_collector.py` — synthetic weather generation and
  the weather reconciliation (`collect_weather_data`);
* `src/src/run_data_collection.py` — the orchestrator (`main`);
* `src/webapp/app.py` — artifact loading and the Flask routes.

Python values parsed from JSON are modelled by the `Json` inductive;
Python exceptions (`KeyError`, `TypeError`, ...) are modelled by the
`Except String` monad; the `requests` library and the external `fastf1`
library are modelled as oracles describing the upstream behaviour.  The
numpy pseudo-random generator is modelled from the spec as an abstract
pure seeded generator (`RNG`): the repository code relies only on the
fact that `np.random.seed(year)` makes the subsequent draws a
deterministic function of `year`.
-/

/-! ## A model of parsed JSON values (Python objects built by response.json()) -/

/-- A parsed JSON value: the Python object returned by `response.json()`. -/
inductive Json where
  | null : Json
  | bool (b : Bool) : Json
  | num (q : ℚ) : Json
  | str (s : String) : Json
  | arr (xs : List Json) : Json
  | obj (fields : List (String × Json)) : Json
deriving Repr

mutual
def Json.beq : Json → Json → Bool
  | .null, .null => true
  | .bool a, .bool b => a == b
  | .num a, .num b => a == b
  | .str a, .str b => a == b
  | .arr xs, .arr ys => Json.beqList xs ys
  | .obj fs, .obj gs => Json.beqFields fs gs
  | _, _ => false
def Json.beqList : List Json → List Json → Bool
  | [], [] => true
  | x :: xs, y :: ys => Json.beq x y && Json.beqList xs ys
  | _, _ => false
def Json.beqFields : List (String × Json) → List (String × Json) → Bool
  | [], [] => true
  | (k1, v1) :: fs, (k2, v2) :: gs => k1 == k2 && Json.beq v1 v2 && Json.beqFields fs gs
  | _, _ => false
end

instance : BEq Json := ⟨Json.beq⟩

/-- Python truthiness of a parsed JSON value (`if data: ...`). -/
def Json.truthy : Json → Bool
  | .null => false
  | .bool b => b
  | .num q => q != 0
  | .str s => s != ""
  | .arr xs => !xs.isEmpty
  | .obj fs => !fs.isEmpty

/-- Python subscript `d[k]` with a string key: returns the value for `k` in a
dict, raises `KeyError` when the key is absent and `TypeError` on
non-dict values. -/
def Json.getKey (j : Json) (k : String) : Except String Json :=
  match j with
  | .obj fields =>
    match fields.lookup k with
    | some v => .ok v
    | none => .error ("KeyError: " ++ k)
  | _ => .error ("TypeError: value is not subscriptable by string " ++ k)

/-- Python membership `k in d` for a string `k`: key lookup on dicts, element
membership on lists, substring test on strings, `TypeError` otherwise. -/
def Json.mem (j : Json) (k : String) : Except String Bool :=
  match j with
  | .obj fields => .ok (fields.any (fun f => f.1 == k))
  | .arr xs => .ok (xs.contains (Json.str k))
  | .str s => .ok (decide (k.data <:+: s.data))
  | _ => .error "TypeError: membership test on non-container"

/-- Python iteration `for x in j`: the elements of a list, the keys of a
dict, the characters of a string, `TypeError` otherwise. -/
def Json.asIter : Json → Except String (List Json)
  | .arr xs => .ok xs
  | .obj fields => .ok (fields.map (fun f => Json.str f.1))
  | .str s => .ok (s.data.map (fun c => Json.str (String.mk [c])))
  | _ => .error "TypeError: value is not iterable"

/-- Python subscript `x[0]`: first element of a list (or first character of a
string); `IndexError` when empty, `KeyError` on dicts, `TypeError`
otherwise. -/
def Json.first : Json → Except String Json
  | .arr [] => .error "IndexError: list index out of range"
  | .arr (x :: _) => .ok x
  | .str s =>
    match s.data with
    | [] => .error "IndexError: string index out of range"
    | c :: _ => .ok (.str (String.mk [c]))
  | .obj _ => .error "KeyError: 0"
  | _ => .error "TypeError: value is not subscriptable"

/-- Python `int(x)`: truncation toward zero for numbers, string parsing for
strings, `TypeError`/`ValueError` otherwise. -/
def pyInt (j : Json) : Except String Int :=
  match j with
  | .num q => .ok (if 0 ≤ q then ⌊q⌋ else -⌊-q⌋)
  | .str s =>
    match s.trim.toInt? with
    | some n => .ok n
    | none => .error "ValueError: invalid literal for int"
  | .bool b => .ok (if b then 1 else 0)
  | _ => .error "TypeError: int() argument"

/-- The conditional-access idiom `x[k] if k in x else None` used throughout
the collectors for optional fields. -/
def Json.getOpt (j : Json) (k : String) : Except String Json := do
  if ← j.mem k then j.getKey k else pure .null

/-- Python `range(a, b)` as a list of integers. -/
def pyRange (a b : Int) : List Int :=
  (List.range (b - a).toNat).map (fun i => a + (i : Int))

/-! ## The Ergast Source Client (`ErgastDataCollector.make_request`)

`make_request` builds `base_url/endpoint.json`, issues one `requests.get`
with a 10 second timeout, calls `raise_for_status`, sleeps 0.5 seconds and
returns `response.json()`; every `requests.exceptions.RequestException`
is caught, printed and turned into `None`.  The outcome of the single
network request is modelled by `HttpOutcome`. -/

/-- Outcome of the single `requests.get` call inside `make_request`:
a transport failure (connection error or timeout, the call raises), an
HTTP error status (`raise_for_status` raises), or a completed response
whose body either parses as JSON (`some body`) or does not (`none`;
`response.json()` then raises `requests.exceptions.JSONDecodeError`,
a `RequestException` subclass, which the handler also catches). -/
inductive HttpOutcome where
  | transportError : HttpOutcome
  | httpError (status : Nat) : HttpOutcome
  | success (body : Option Json) : HttpOutcome

/-- Observable behaviour of one `make_request` call: the value returned to
the caller, how many network requests were issued, how many seconds were
spent in `time.sleep`, and whether an exception escaped to the caller. -/
structure MakeRequestResult where
  result : Option Json
  requestsIssued : Nat
  sleptSeconds : ℚ
  raisedToCaller : Bool
deriving Repr

/-- `ErgastDataCollector.make_request`: one request, `raise_for_status`,
`time.sleep(0.5)`, then `response.json()`; any `RequestException` is
caught and yields `None`.  Note the sleep sits between `raise_for_status`
and `json()`, so it is skipped on transport/HTTP errors but performed
even when the body fails to parse. -/
def make_request (o : HttpOutcome) : MakeRequestResult :=
  match o with
  | .transportError => ⟨none, 1, 0, false⟩
  | .httpError _ => ⟨none, 1, 0, false⟩
  | .success none => ⟨none, 1, 1/2, false⟩
  | .success (some body) => ⟨some body, 1, 1/2, false⟩

/-! ## The five Ergast collectors

Each collector loops over its keys, calls `make_request`, guards with
`if data and 'MRData' in data:`, flattens the nested response into flat
records (dicts, modelled as association lists) and finally writes its
output file only under the condition visible in the source.  The upstream
behaviour is an oracle `env : String → HttpOutcome` mapping the endpoint
string to the outcome of its single request. -/

/-- A flat record: the Python dict appended to the accumulator list. -/
abbrev PyRecord : Type := List (String × Json)

/-- Result of one collector run: the accumulated records, whether the
output file was written, and the value returned to the caller
(`None` is `none`, a dataframe is `some` of its records). -/
structure CollectorResult where
  records : List PyRecord
  wrote : Bool
  result : Option (List PyRecord)

/-- The guard `if data and 'MRData' in data:` on an optional parsed body. -/
def ergastGuard (data : Option Json) : Except String Bool :=
  match data with
  | none => pure false
  | some j => if j.truthy then j.mem "MRData" else pure false

/-- Shared final step of the Singapore/standings/schedules collectors:
`if all_records: df = DataFrame(...); df.to_csv(...); return df` and
otherwise `return None` without writing. -/
def finalizeCollector (records : List PyRecord) : CollectorResult :=
  if records.isEmpty then ⟨records, false, none⟩ else ⟨records, true, some records⟩

/-- Field extraction for one entry of `race['Results']` in
`collect_singapore_gp_results`, mirroring the source dict literal
(including the `if k in d` guards for optional fields). -/
def singaporeResultFields (result : Json) : Except String (List (String × Json)) := do
  let position ← result.getKey "position"
  let positionText ← result.getKey "positionText"
  let points ← result.getKey "points"
  let driver ← result.getKey "Driver"
  let driverNumber ← if ← driver.mem "permanentNumber" then
      (← result.getKey "Driver").getKey "permanentNumber"
    else pure .null
  let driverCode ← (← result.getKey "Driver").getKey "code"
  let driverGivenName ← (← result.getKey "Driver").getKey "givenName"
  let driverFamilyName ← (← result.getKey "Driver").getKey "familyName"
  let constructorName ← (← result.getKey "Constructor").getKey "name"
  let constructorId ← (← result.getKey "Constructor").getKey "constructorId"
  let grid ← result.getKey "Grid"
  let laps ← result.getKey "Laps"
  let status ← result.getKey "Status"
  let time ← if ← result.mem "Time" then (← result.getKey "Time").getKey "time"
    else pure .null
  let fastestLapRank ← if ← result.mem "FastestLap" then
      (← result.getKey "FastestLap").getKey "rank"
    else pure .null
  let fastestLapTime ← if ← result.mem "FastestLap" then
      if ← (← result.getKey "FastestLap").mem "Time" then
        (← (← result.getKey "FastestLap").getKey "Time").getKey "time"
      else pure .null
    else pure .null
  let fastestLapAvgSpeed ← if ← result.mem "FastestLap" then
      if ← (← result.getKey "FastestLap").mem "AverageSpeed" then
        (← (← result.getKey "FastestLap").getKey "AverageSpeed").getKey "speed"
      else pure .null
    else pure .null
  pure [("Position", position), ("PositionText", positionText), ("Points", points),
    ("DriverNumber", driverNumber), ("DriverCode", driverCode),
    ("DriverGivenName", driverGivenName), ("DriverFamilyName", driverFamilyName),
    ("ConstructorName", constructorName), ("ConstructorId", constructorId),
    ("Grid", grid), ("Laps", laps), ("Status", status), ("Time", time),
    ("FastestLapRank", fastestLapRank), ("FastestLapTime", fastestLapTime),
    ("FastestLapAvgSpeed", fastestLapAvgSpeed)]

/-- Accumulation loop of `collect_singapore_gp_results`: for each year in
`range(2008, 2025)` fetch `{year}/Singapore/results`, and for each race
and each result build one flat record. -/
def singaporeLoop (env : String → HttpOutcome) : Except String (List PyRecord) := do
  let mut all_results : List PyRecord := []
  for year in pyRange 2008 2025 do
    let data := (make_request (env (toString year ++ "/Singapore/results"))).result
    if ← ergastGuard data then
      let j := data.getD .null
      let races ← (← (← (← j.getKey "MRData").getKey "RaceTable").getKey "Races").asIter
      for race in races do
        let race_info : List (String × Json) :=
          [("Year", .num (year : ℚ)), ("Race", .str "Singapore"),
           ("Date", ← race.getKey "date"), ("Round", ← race.getKey "round"),
           ("RaceName", ← race.getKey "raceName")]
        if ← race.mem "Results" then
          let results ← (← race.getKey "Results").asIter
          for result in results do
            let fields ← singaporeResultFields result
            all_results := all_results ++ [race_info ++ fields]
  pure all_results

/-- `ErgastDataCollector.collect_singapore_gp_results`. -/
def collect_singapore_gp_results (env : String → HttpOutcome) :
    Except String CollectorResult :=
  (singaporeLoop env).map finalizeCollector

/-- Field extraction for one entry of `standings_list['DriverStandings']`,
including the truthiness guard on `standing['Constructors']`. -/
def driverStandingFields (yearData : Json) (standing : Json) :
    Except String (List (String × Json)) := do
  let yearInt ← pyInt yearData
  let position ← standing.getKey "position"
  let points ← standing.getKey "points"
  let wins ← standing.getKey "wins"
  let driverCode ← (← standing.getKey "Driver").getKey "code"
  let driverGivenName ← (← standing.getKey "Driver").getKey "givenName"
  let driverFamilyName ← (← standing.getKey "Driver").getKey "familyName"
  let constructors ← standing.getKey "Constructors"
  let constructorName ← if constructors.truthy then
      (← (← standing.getKey "Constructors").first).getKey "name"
    else pure .null
  let constructorId ← if constructors.truthy then
      (← (← standing.getKey "Constructors").first).getKey "constructorId"
    else pure .null
  pure [("Year", .num (yearInt : ℚ)), ("Position", position), ("Points", points),
    ("Wins", wins), ("DriverCode", driverCode), ("DriverGivenName", driverGivenName),
    ("DriverFamilyName", driverFamilyName), ("ConstructorName", constructorName),
    ("ConstructorId", constructorId)]

/-- Accumulation loop of `collect_driver_standings`. -/
def driverStandingsLoop (years : List Int) (env : String → HttpOutcome) :
    Except String (List PyRecord) := do
  let mut all_standings : List PyRecord := []
  for year in years do
    let data := (make_request (env (toString year ++ "/driverStandings"))).result
    if ← ergastGuard data then
      let j := data.getD .null
      let standings_table ← (← j.getKey "MRData").getKey "StandingsTable"
      for standings_list in ← (← standings_table.getKey "StandingsLists").asIter do
        let year_data ← standings_list.getKey "season"
        for standing in ← (← standings_list.getKey "DriverStandings").asIter do
          all_standings := all_standings ++ [← driverStandingFields year_data standing]
  pure all_standings

/-- `ErgastDataCollector.collect_driver_standings` (default year range is
`range(2015, 2025)`; the orchestrator uses the default). -/
def collect_driver_standings (years : List Int) (env : String → HttpOutcome) :
    Except String CollectorResult :=
  (driverStandingsLoop years env).map finalizeCollector

/-- Accumulation loop of `collect_constructor_standings`. -/
def constructorStandingsLoop (years : List Int) (env : String → HttpOutcome) :
    Except String (List PyRecord) := do
  let mut all_standings : List PyRecord := []
  for year in years do
    let data := (make_request (env (toString year ++ "/constructorStandings"))).result
    if ← ergastGuard data then
      let j := data.getD .null
      let standings_table ← (← j.getKey "MRData").getKey "StandingsTable"
      for standings_list in ← (← standings_table.getKey "StandingsLists").asIter do
        let year_data ← standings_list.getKey "season"
        for standing in ← (← standings_list.getKey "ConstructorStandings").asIter do
          let yearInt ← pyInt year_data
          let record : List (String × Json) :=
            [("Year", .num (yearInt : ℚ)),
             ("Position", ← standing.getKey "position"),
             ("Points", ← standing.getKey "points"),
             ("Wins", ← standing.getKey "wins"),
             ("ConstructorName", ← (← standing.getKey "Constructor").getKey "name"),
             ("ConstructorId", ← (← standing.getKey "Constructor").getKey "constructorId")]
          all_standings := all_standings ++ [record]
  pure all_standings

/-- `ErgastDataCollector.collect_constructor_standings`. -/
def collect_constructor_standings (years : List Int) (env : String → HttpOutcome) :
    Except String CollectorResult :=
  (constructorStandingsLoop years env).map finalizeCollector

/-- `ErgastDataCollector.collect_circuit_info`.  Unlike the other
collectors, the dataframe is built and written inside the response guard,
so a successful response containing zero circuits still writes an empty
output file and returns an empty dataframe. -/
def collect_circuit_info (env : String → HttpOutcome) :
    Except String CollectorResult := do
  let data := (make_request (env "circuits")).result
  if ← ergastGuard data then
    let j := data.getD .null
    let circuits ← (← (← (← j.getKey "MRData").getKey "CircuitTable").getKey "Circuits").asIter
    let mut circuit_data : List PyRecord := []
    for circuit in circuits do
      let location ← circuit.getKey "Location"
      let record : List (String × Json) :=
        [("CircuitId", ← circuit.getKey "circuitId"),
         ("CircuitName", ← circuit.getKey "circuitName"),
         ("Country", ← location.getKey "country"),
         ("Latitude", ← location.getKey "lat"),
         ("Longitude", ← location.getKey "long"),
         ("Locality", ← location.getKey "locality")]
      circuit_data := circuit_data ++ [record]
    pure ⟨circuit_data, true, some circuit_data⟩
  else
    pure ⟨[], false, none⟩

/-- Accumulation loop of `collect_season_schedules`. -/
def seasonSchedulesLoop (years : List Int) (env : String → HttpOutcome) :
    Except String (List PyRecord) := do
  let mut all_schedules : List PyRecord := []
  for year in years do
    let data := (make_request (env (toString year))).result
    if ← ergastGuard data then
      let j := data.getD .null
      let races ← (← (← (← j.getKey "MRData").getKey "RaceTable").getKey "Races").asIter
      for race in races do
        let circuit ← race.getKey "Circuit"
        let record : List (String × Json) :=
          [("Year", .num (year : ℚ)),
           ("Round", ← race.getKey "round"),
           ("RaceName", ← race.getKey "raceName"),
           ("CircuitName", ← circuit.getKey "circuitName"),
           ("CircuitId", ← circuit.getKey "circuitId"),
           ("Date", ← race.getKey "date"),
           ("Time", ← race.getOpt "time"),
           ("Country", ← (← (← race.getKey "Circuit").getKey "Location").getKey "country"),
           ("Locality", ← (← (← race.getKey "Circuit").getKey "Location").getKey "locality")]
        all_schedules := all_schedules ++ [record]
  pure all_schedules

/-- `ErgastDataCollector.collect_season_schedules`. -/
def collect_season_schedules (years : List Int) (env : String → HttpOutcome) :
    Except String CollectorResult :=
  (seasonSchedulesLoop years env).map finalizeCollector

/-! ## Synthetic weather generation (`WeatherDataCollector.create_synthetic_weather_data`)

The Python code seeds the global numpy generator with the year
(`np.random.seed(year)`) and then draws, in a fixed order, Gaussian
temperatures, Gaussian humidity (clamped to [60, 95]), exponential
precipitation, exponential wind speed (capped at 25), uniform wind
direction and Gaussian pressure.  Modelled from the spec: the numpy
legacy generator itself is external code, abstracted here as a pure
seeded generator interface (`RNG`); the repository relies only on the
reseeding making each year draw deterministic. -/

/-- Modelled from the spec: a fixed-seed pseudo-random generator with the
numpy draw primitives used by the collector.  `seed` resets the state
from an integer (as `np.random.seed(year)` does); each draw returns the
value and the successor state. -/
structure RNG (σ : Type) where
  seed : Int → σ
  normal : ℚ → ℚ → σ → ℚ × σ
  exponential : ℚ → σ → ℚ × σ
  uniform : ℚ → ℚ → σ → ℚ × σ

/-- Round half to even (the rounding of Python `round`), as an integer. -/
def roundHalfEven (q : ℚ) : ℤ :=
  let n := ⌊q⌋
  let f := q - (n : ℚ)
  if f < 1/2 then n
  else if 1/2 < f then n + 1
  else if n % 2 = 0 then n else n + 1

/-- Python `round(x, 1)`: round half to even at one decimal place. -/
def round1 (q : ℚ) : ℚ := (roundHalfEven (10 * q) : ℚ) / 10

/-- Python `round(x, 0)`: round half to even to an integer-valued float. -/
def round0 (q : ℚ) : ℚ := (roundHalfEven q : ℚ)

/-- The seven weather quantities drawn for one year, after the clamping
applied in the source (`humidity` clamped to [60, 95], `wind_speed`
capped at 25). -/
structure SynthDraws where
  temp_min : ℚ
  temp_max : ℚ
  humidity : ℚ
  precipitation : ℚ
  wind_speed : ℚ
  wind_direction : ℚ
  pressure : ℚ
deriving DecidableEq, Repr

/-- The draw sequence of `create_synthetic_weather_data` for one year:
`np.random.seed(year)` followed by the seven draws in source order. -/
def synthDraws {σ : Type} (g : RNG σ) (year : Int) : SynthDraws :=
  let s0 := g.seed year
  let (temp_min, s1) := g.normal 26 2 s0
  let (temp_max, s2) := g.normal 31 2 s1
  let (humidity_raw, s3) := g.normal 80 10 s2
  let humidity := max 60 (min 95 humidity_raw)
  let (precipitation, s4) := g.exponential 5 s3
  let (wind_raw, s5) := g.exponential 8 s4
  let wind_speed := min 25 wind_raw
  let (wind_direction, s6) := g.uniform 0 360 s5
  let (pressure, _) := g.normal 1013 10 s6
  ⟨temp_min, temp_max, humidity, precipitation, wind_speed, wind_direction, pressure⟩

/-- The condition thresholds of `create_synthetic_weather_data`, applied to
the drawn (pre-rounding) precipitation and the clamped humidity. -/
def weatherConditionOf (precipitation humidity : ℚ) : String :=
  if precipitation > 10 then "Rain"
  else if precipitation > 2 then "Light Rain"
  else if humidity > 85 then "Humid"
  else "Clear"

/-- One synthetic weather record (the `weather_record` dict of the source,
with its rounded fields). -/
structure WeatherRecord where
  Year : Int
  Race : String
  Date : String
  Temperature_Min_C : ℚ
  Temperature_Max_C : ℚ
  Temperature_Avg_C : ℚ
  Humidity_Percent : ℚ
  Precipitation_mm : ℚ
  Wind_Speed_kmh : ℚ
  Wind_Direction_deg : ℚ
  Pressure_hPa : ℚ
  Weather_Condition : String
  Data_Source : String
deriving DecidableEq, Repr

/-- The record built for one year inside the loop of
`create_synthetic_weather_data`. -/
def mkSyntheticRecord {σ : Type} (g : RNG σ) (year : Int) : WeatherRecord :=
  let d := synthDraws g year
  { Year := year
    Race := "Singapore"
    Date := toString year ++ "-09-22"
    Temperature_Min_C := round1 d.temp_min
    Temperature_Max_C := round1 d.temp_max
    Temperature_Avg_C := round1 ((d.temp_min + d.temp_max) / 2)
    Humidity_Percent := round1 d.humidity
    Precipitation_mm := round1 d.precipitation
    Wind_Speed_kmh := round1 d.wind_speed
    Wind_Direction_deg := round0 d.wind_direction
    Pressure_hPa := round1 d.pressure
    Weather_Condition := weatherConditionOf d.precipitation d.humidity
    Data_Source := "Synthetic" }

/-- `WeatherDataCollector.create_synthetic_weather_data`: one synthetic
record per entry of `years`, in order. -/
def create_synthetic_weather_data {σ : Type} (g : RNG σ) (years : List Int) :
    List WeatherRecord :=
  years.map (mkSyntheticRecord g)

/-! ## Weather reconciliation (`WeatherDataCollector.collect_weather_data`)

Observed data comes from the external FastF1 library:
`get_weather_from_fastf1` loads the session, takes its per-sample
`weather_data` frame (many rows per race) and adds `Year`/`Race`/`Date`
columns; it returns `None` on any exception and on an empty frame.
Modelled from the spec: the FastF1 session weather payload is external,
abstracted as an oracle `Int → Option (List P)` over an opaque row
payload type `P` (`none` covers both an exception and no data, `some
rows` a nonempty frame would have `rows ≠ []`; the source discards the
empty-frame case into `None` as well, which the model reproduces).
Observed rows carry no `Data_Source` column; synthetic rows carry
`Data_Source = 'Synthetic'`. -/

/-- A row of the combined weather table: either one per-sample row of an
observed FastF1 frame (tagged with the year the source added) or one
synthetic record. -/
inductive WeatherRow (P : Type) where
  | observed (year : Int) (payload : P) : WeatherRow P
  | synthetic (rec : WeatherRecord) : WeatherRow P
deriving DecidableEq, Repr

/-- The `Year` column of a combined row. -/
def WeatherRow.year {P : Type} : WeatherRow P → Int
  | .observed y _ => y
  | .synthetic r => r.Year

/-- The `Data_Source` column of a combined row: absent (NaN) for observed
FastF1 rows, `'Synthetic'` for synthetic rows. -/
def WeatherRow.dataSource {P : Type} : WeatherRow P → Option String
  | .observed _ _ => none
  | .synthetic _ => some "Synthetic"

/-- `WeatherDataCollector.get_weather_from_fastf1` for one year, over the
oracle result for that session: `None` stays `None`, an empty frame
becomes `None`, and a nonempty frame becomes year-tagged observed rows. -/
def get_weather_from_fastf1 {P : Type} (session : Option (List P)) (year : Int) :
    Option (List (WeatherRow P)) :=
  match session with
  | none => none
  | some rows => if rows.isEmpty then none else some (rows.map (WeatherRow.observed year))

/-- `drop_duplicates(subset=['Year'], keep='first')`, with the set of
already-seen years as accumulator. -/
def dropDupYearAux {P : Type} (seen : List Int) : List (WeatherRow P) → List (WeatherRow P)
  | [] => []
  | r :: rs =>
    if r.year ∈ seen then dropDupYearAux seen rs
    else r :: dropDupYearAux (r.year :: seen) rs

/-- `combined_weather.drop_duplicates(subset=['Year'], keep='first')`. -/
def dropDuplicatesByYear {P : Type} (rows : List (WeatherRow P)) : List (WeatherRow P) :=
  dropDupYearAux [] rows

/-- Observable outcome of `collect_weather_data`: the per-year observed
frames collected, the synthetic frame (when generated), the returned
table (`None` when nothing was collected) and whether the output file
was written. -/
structure WeatherCollectResult (P : Type) where
  observedBatches : List (List (WeatherRow P))
  syntheticBatch : Option (List (WeatherRow P))
  result : Option (List (WeatherRow P))
  wrote : Bool

/-- The FastF1 phase of `collect_weather_data`: one frame appended to
`all_weather_data` per year whose fetch succeeded (skipped entirely when
`use_fastf1` is false). -/
def observedWeatherBatches {P : Type} (env : Int → Option (List P)) (years : List Int)
    (use_fastf1 : Bool) : List (List (WeatherRow P)) :=
  if use_fastf1 then years.filterMap (fun y => get_weather_from_fastf1 (env y) y) else []

/-- The synthetic phase of `collect_weather_data`: one frame covering every
requested year, generated exactly when `use_synthetic` holds and fewer
than half the requested years produced observed data
(`len(all_weather_data) < len(years) * 0.5`, which over integers is
`2 * observedCount < len(years)`). -/
def syntheticWeatherBatch {σ P : Type} (g : RNG σ) (years : List Int)
    (observedCount : Nat) (use_synthetic : Bool) : Option (List (WeatherRow P)) :=
  if use_synthetic && decide (2 * observedCount < years.length) then
    some ((create_synthetic_weather_data g years).map WeatherRow.synthetic)
  else none

/-- `WeatherDataCollector.collect_weather_data`: gather FastF1 frames per
year, append one synthetic frame for all years when fewer than half the
requested years produced data, concatenate, drop duplicate years keeping
the first occurrence, and write/return the result — or return `None`
without writing when nothing was collected. -/
def collect_weather_data {σ P : Type} (g : RNG σ) (env : Int → Option (List P))
    (years : List Int) (use_fastf1 use_synthetic : Bool) : WeatherCollectResult P :=
  let observedBatches := observedWeatherBatches env years use_fastf1
  let syntheticBatch := syntheticWeatherBatch g years observedBatches.length use_synthetic
  let all_weather_data := observedBatches ++ (syntheticBatch.map (fun b => [b])).getD []
  if all_weather_data.isEmpty then
    ⟨observedBatches, syntheticBatch, none, false⟩
  else
    ⟨observedBatches, syntheticBatch,
      some (dropDuplicatesByYear all_weather_data.flatten), true⟩

/-! ## The orchestrator (`run_data_collection.main`)

`main` runs, in order: the Ergast bundle (`collect_all_data`), the
weather collector, the FastF1 richer per-race results collector, and the
validation/summary pass.  None of the four steps is wrapped in a
`try/except` in `main` itself: only transport-level errors (caught
inside `make_request`) and FastF1 per-year exceptions (caught inside
`collect_singapore_fastf1`) are tolerated; any other exception
propagates and aborts the process. -/

/-- Results of `ErgastDataCollector.collect_all_data`. -/
structure AllData where
  singapore_results : CollectorResult
  driver_standings : CollectorResult
  constructor_standings : CollectorResult
  circuit_info : CollectorResult
  season_schedules : CollectorResult

/-- `ErgastDataCollector.collect_all_data`: the five collectors in source
order; an exception in any of them propagates. -/
def collect_all_data (env : String → HttpOutcome) : Except String AllData := do
  let singapore_results ← collect_singapore_gp_results env
  let driver_standings ← collect_driver_standings (pyRange 2015 2025) env
  let constructor_standings ← collect_constructor_standings (pyRange 2015 2025) env
  let circuit_info ← collect_circuit_info env
  let season_schedules ← collect_season_schedules (pyRange 2015 2025) env
  pure ⟨singapore_results, driver_standings, constructor_standings,
    circuit_info, season_schedules⟩

/-- The files written by the Ergast bundle, with their record counts. -/
def allDataFiles (d : AllData) : List (String × Nat) :=
  (if d.singapore_results.wrote then
    [("singapore_gp_results_ergast_2008_2024.csv", d.singapore_results.records.length)] else []) ++
  (if d.driver_standings.wrote then
    [("driver_standings_2015_2024.csv", d.driver_standings.records.length)] else []) ++
  (if d.constructor_standings.wrote then
    [("constructor_standings_2015_2024.csv", d.constructor_standings.records.length)] else []) ++
  (if d.circuit_info.wrote then
    [("circuits_info.csv", d.circuit_info.records.length)] else []) ++
  (if d.season_schedules.wrote then
    [("season_schedules_2015_2024.csv", d.season_schedules.records.length)] else [])

/-- The file written by the weather collector, when any. -/
def weatherFiles {P : Type} (w : WeatherCollectResult P) : List (String × Nat) :=
  match w.result with
  | some rows => if w.wrote then [("singapore_weather_2008_2024.csv", rows.length)] else []
  | none => []

/-- `run_data_collection.collect_singapore_fastf1`: for each year in
`range(2008, 2025)` try to load the FastF1 session results (modelled
from the spec as an oracle over an opaque row type `Q`; `none` is a
caught per-year exception), tag rows with the year, and write the
concatenation when at least one year succeeded. -/
def collect_singapore_fastf1 {Q : Type} (env : Int → Option (List Q)) :
    Option (List (Int × Q)) × Bool :=
  let singapore_results :=
    (pyRange 2008 2025).filterMap (fun y => (env y).map (fun rows => rows.map (fun r => (y, r))))
  if singapore_results.isEmpty then (none, false)
  else (some singapore_results.flatten, true)

/-- The file written by the FastF1 richer-results collector, when any. -/
def fastf1Files {Q : Type} (r : Option (List (Int × Q)) × Bool) : List (String × Nat) :=
  match r.1 with
  | some rows => if r.2 then [("singapore_gp_results_fastf1_2008_2024.csv", rows.length)] else []
  | none => []

/-- The checklist of key files inspected by `validate_and_summarize`. -/
def keyFiles : List String :=
  ["singapore_gp_results_ergast_2008_2024.csv", "driver_standings_2015_2024.csv",
   "constructor_standings_2015_2024.csv", "singapore_weather_2008_2024.csv"]

/-- `run_data_collection.validate_and_summarize`: purely observational —
sums the record counts of the files present and reports which key files
exist.  It never raises (per-file read errors are caught in the source). -/
def validate_and_summarize (files : List (String × Nat)) : Nat × List (String × Bool) :=
  ((files.map Prod.snd).sum, keyFiles.map (fun k => (k, (files.map Prod.fst).contains k)))

/-- The four orchestrator steps, in the order `main` runs them. -/
inductive Step where
  | historical : Step
  | weather : Step
  | richerResults : Step
  | validation : Step
deriving DecidableEq, Repr

/-- Observable outcome of a completed orchestrator run. -/
structure MainOut where
  trace : List Step
  files : List (String × Nat)
  totalRecords : Nat
  keyStatus : List (String × Bool)

/-- `run_data_collection.main`: the four steps in source order, with no
failure guard of its own — an exception raised by the Ergast bundle
propagates (there is no `try/except` in `main`). -/
def run_data_collection_main {σ P Q : Type} (ergastEnv : String → HttpOutcome)
    (fastf1WeatherEnv : Int → Option (List P)) (fastf1ResultsEnv : Int → Option (List Q))
    (g : RNG σ) : Except String MainOut := do
  let mut trace : List Step := []
  let historical ← collect_all_data ergastEnv
  trace := trace ++ [.historical]
  let weather := collect_weather_data g fastf1WeatherEnv (pyRange 2008 2025) true true
  trace := trace ++ [.weather]
  let richer := collect_singapore_fastf1 fastf1ResultsEnv
  trace := trace ++ [.richerResults]
  let files := allDataFiles historical ++ weatherFiles weather ++ fastf1Files richer
  let summary := validate_and_summarize files
  trace := trace ++ [.validation]
  pure ⟨trace, files, summary.1, summary.2⟩

/-! ## The web dashboard (`webapp/app.py`)

The Flask app loads five artifact files once at startup
(`load_model_and_data`); any exception during loading makes the
process-wide snapshot `None`.  Every route then branches on that
snapshot.  The artifact store is modelled with one `Option` per
artifact (`none` covers both a missing file and a failed
deserialization); the pickled model, scaler and encoders are opaque to
every route, so their types are parameters. -/

/-- One row of `singapore_gp_2025_predictions.csv`, with the columns the
routes read. -/
structure PredRow where
  Driver : String
  Team : String
  Win_Probability : ℚ
deriving DecidableEq, Repr

/-- One row of `feature_importance.csv`. -/
structure FIRow where
  Feature : String
  Importance : ℚ
deriving DecidableEq, Repr

/-- The dict `summary_df.iloc[0].to_dict()`. -/
abbrev SummaryRow : Type := List (String × String)

/-- The five artifacts read by `load_model_and_data`, each `none` when the
file is absent or fails to deserialize (`prediction_summary.csv` holds a
list of rows; `iloc[0]` additionally fails when that list is empty). -/
structure ArtifactStore (M S E : Type) where
  best_model : Option M
  feature_scaler : Option S
  label_encoders : Option E
  predictions : Option (List PredRow)
  feature_importance : Option (List FIRow)
  summary : Option (List SummaryRow)

/-- The process-wide snapshot built at startup when loading succeeds. -/
structure ModelData (M S E : Type) where
  model : M
  scaler : S
  label_encoders : E
  predictions : List PredRow
  feature_importance : List FIRow
  summary : SummaryRow

/-- `load_model_and_data`: load the artifacts in source order inside one
`try`; any failure (including `iloc[0]` on an empty summary table)
returns `None`. -/
def load_model_and_data {M S E : Type} (a : ArtifactStore M S E) :
    Option (ModelData M S E) := do
  let model ← a.best_model
  let scaler ← a.feature_scaler
  let label_encoders ← a.label_encoders
  let predictions_df ← a.predictions
  let feature_importance_df ← a.feature_importance
  let summary_df ← a.summary
  let summary ← summary_df.head?
  pure ⟨model, scaler, label_encoders, predictions_df, feature_importance_df, summary⟩

/-- A rendered response of the dashboard. -/
inductive WebResponse where
  | errorPage (msg : String) : WebResponse
  | indexPage (top : List PredRow) (teamAgg : List (String × ℚ × Nat))
      (summary : SummaryRow) : WebResponse
  | driverPage (driver : PredRow) : WebResponse
  | aboutPage : WebResponse
  | jsonError (msg : String) (status : Nat) : WebResponse
  | jsonPredictions (rows : List PredRow) (summary : SummaryRow) : WebResponse
  | jsonFeatureImportance (rows : List FIRow) : WebResponse
deriving DecidableEq, Repr

/-- The error text rendered when the startup snapshot is `None`. -/
def modelDataNotFound : String :=
  "Model data not found. Please run the feature engineering notebook first."

/-- The `groupby('Team').agg(...)` / `sort_values` aggregate of the index
route: per team the summed win probability and the driver count, with
team keys sorted ascending by the groupby and the result sorted by total
win probability descending (a stable sort models the unspecified tie
order of the pandas sort). -/
def team_analysis (preds : List PredRow) : List (String × ℚ × Nat) :=
  let teams := List.mergeSort ((preds.map (fun r => r.Team)).dedup)
    (fun a b => a ≤ b)
  let aggs := teams.map (fun t =>
    (t, ((preds.filter (fun r => r.Team == t)).map (fun r => r.Win_Probability)).sum,
      (preds.filter (fun r => r.Team == t)).length))
  List.mergeSort aggs (fun a b => b.2.1 ≤ a.2.1)

/-- The `/` route (`index`). -/
def index {M S E : Type} (md : Option (ModelData M S E)) : WebResponse :=
  match md with
  | none => .errorPage modelDataNotFound
  | some d => .indexPage (d.predictions.take 10) (team_analysis d.predictions) d.summary

/-- The `/api/predictions` route. -/
def api_predictions {M S E : Type} (md : Option (ModelData M S E)) : WebResponse :=
  match md with
  | none => .jsonError "Model data not found" 500
  | some d => .jsonPredictions d.predictions d.summary

/-- The `/api/feature-importance` route. -/
def api_feature_importance {M S E : Type} (md : Option (ModelData M S E)) : WebResponse :=
  match md with
  | none => .jsonError "Model data not found" 500
  | some d => .jsonFeatureImportance d.feature_importance

/-- Model of Python `str.upper()` (ASCII letters; driver codes are ASCII). -/
def pyCharUpper (c : Char) : Char := Char.toUpper c

/-- `driver_code.upper()`. -/
def py_upper (s : String) : String := String.mk (s.data.map pyCharUpper)

/-- The pandas row filter of the driver route:
`predictions[predictions['Driver'] == driver_code.upper()]`. -/
def driver_lookup (preds : List PredRow) (driver_code : String) : List PredRow :=
  preds.filter (fun r => r.Driver == py_upper driver_code)

/-- The `/driver/<driver_code>` route (`driver_detail`): error page when the
snapshot is `None`, error page when the filtered frame is empty,
otherwise the detail page for `iloc[0]` of the filtered frame. -/
def driver_detail {M S E : Type} (md : Option (ModelData M S E))
    (driver_code : String) : WebResponse :=
  match md with
  | none => .errorPage modelDataNotFound
  | some d =>
    match driver_lookup d.predictions driver_code with
    | [] => .errorPage ("Driver " ++ driver_code ++ " not found in predictions.")
    | info :: _ => .driverPage info

/-- The `/about` route: static, independent of the snapshot. -/
def about : WebResponse := .aboutPage

/-! ## Concrete fixtures used by the witnesses and counterexamples -/

/-- ASCII lowercase test on one character (driver codes are ASCII). -/
def isLowerAscii (c : Char) : Bool := 97 ≤ c.toNat && c.toNat ≤ 122

/-- Whether a string contains an ASCII lowercase letter. -/
def hasLowerAscii (s : String) : Bool := s.data.any isLowerAscii

/-- A concrete instance of the abstract generator interface, used to
evaluate the generic theorems on explicit inputs (it plays no role in the
definitions of the embedding). -/
def testRNG : RNG Unit :=
  { seed := fun _ => ()
    normal := fun mu _ s => (mu, s)
    exponential := fun scale s => (scale, s)
    uniform := fun lo _ s => (lo, s) }

/-- An upstream behaviour where every request fails at the transport level. -/
def allFailEnv : String → HttpOutcome := fun _ => .transportError

/-- An upstream behaviour whose one well-formed-looking response is missing
the nested `RaceTable` field. -/
def malformedErgastEnv : String → HttpOutcome := fun e =>
  if e = "2008/Singapore/results" then .success (some (.obj [("MRData", .obj [])]))
  else .transportError

/-- An upstream behaviour where the circuits request succeeds but carries
zero circuits. -/
def circuitsEmptyEnv : String → HttpOutcome := fun _ =>
  .success (some (.obj [("MRData", .obj [("CircuitTable", .obj [("Circuits", .arr [])])])]))

/-- A FastF1 weather oracle with observed data for 2020 only. -/
def obs2020Env : Int → Option (List Unit) := fun y =>
  if y = 2020 then some [()] else none

/-- The reconciled table produced by `collect_weather_data` over
`obs2020Env` for years [2020, 2021, 2022]. -/
def c1Rows : List (WeatherRow Unit) :=
  [.observed 2020 (), .synthetic (mkSyntheticRecord testRNG 2021),
   .synthetic (mkSyntheticRecord testRNG 2022)]

/-- An artifact store with every artifact missing. -/
def emptyArtifacts : ArtifactStore Unit Unit Unit := ⟨none, none, none, none, none, none⟩

/-- A loaded snapshot with one all-uppercase driver row. -/
def sampleModelData : ModelData Unit Unit Unit :=
  ⟨(), (), (), [⟨"VER", "Red Bull", 9/10⟩], [], []⟩

/-- A loaded snapshot whose only driver row has a lowercase letter in its
`Driver` value. -/
def lowercaseModelData : ModelData Unit Unit Unit :=
  ⟨(), (), (), [⟨"Ver", "Red Bull", 9/10⟩], [], []⟩

/-! ## Helper lemmas -/

theorem find_append_first {α : Type} (p : α → Bool) (l1 l2 : List α) (x : α)
    (h : l1.find? p = some x) : (l1 ++ l2).find? p = some x := by
  induction l1 with
  | nil => cases h
  | cons a t ih =>
    cases hpa : p a with
    | true =>
      rw [List.find?_cons_of_pos _ hpa] at h
      rw [List.cons_append, List.find?_cons_of_pos _ hpa]
      exact h
    | false =>
      rw [List.find?_cons_of_neg _ (by simp [hpa])] at h
      rw [List.cons_append, List.find?_cons_of_neg _ (by simp [hpa])]
      exact ih h

theorem find_append_second {α : Type} (p : α → Bool) (l1 l2 : List α)
    (h : l1.find? p = none) : (l1 ++ l2).find? p = l2.find? p := by
  induction l1 with
  | nil => rfl
  | cons a t ih =>
    cases hpa : p a with
    | true => rw [List.find?_cons_of_pos _ hpa] at h; cases h
    | false =>
      rw [List.find?_cons_of_neg _ (by simp [hpa])] at h
      rw [List.cons_append, List.find?_cons_of_neg _ (by simp [hpa])]
      exact ih h

theorem dropDupYearAux_find {P : Type} (y : Int) (l : List (WeatherRow P)) :
    ∀ (seen : List Int), y ∉ seen →
      (dropDupYearAux seen l).find? (fun r => r.year == y) =
        l.find? (fun r => r.year == y) := by
  induction l with
  | nil => intro seen _; rfl
  | cons r rs ih =>
    intro seen hy
    by_cases hr : r.year ∈ seen
    · have hne : (r.year == y) = false := by
        rw [beq_eq_false_iff_ne]
        rintro rfl
        exact hy hr
      rw [dropDupYearAux, if_pos hr, ih seen hy,
        List.find?_cons_of_neg _ (by simp [hne])]
    · rw [dropDupYearAux, if_neg hr]
      by_cases hry : r.year = y
      · have hpt : (r.year == y) = true := beq_iff_eq.mpr hry
        simp only [List.find?, hpt]
      · have hne : (r.year == y) = false := beq_eq_false_iff_ne.mpr hry
        have hy2 : y ∉ r.year :: seen := by
          intro h
          rcases List.mem_cons.mp h with h | h
          · exact hry h.symm
          · exact hy h
        rw [List.find?_cons_of_neg _ (by simp [hne]),
          List.find?_cons_of_neg _ (by simp [hne])]
        exact ih (r.year :: seen) hy2

theorem dropDupYearAux_nodup {P : Type} (l : List (WeatherRow P)) :
    ∀ (seen : List Int),
      ((dropDupYearAux seen l).map WeatherRow.year).Nodup ∧
      ∀ y ∈ (dropDupYearAux seen l).map WeatherRow.year, y ∉ seen := by
  induction l with
  | nil =>
    intro seen
    exact ⟨List.nodup_nil, by intro y h; cases h⟩
  | cons r rs ih =>
    intro seen
    by_cases hr : r.year ∈ seen
    · rw [dropDupYearAux, if_pos hr]
      exact ih seen
    · rw [dropDupYearAux, if_neg hr]
      obtain ⟨hnd, hdisj⟩ := ih (r.year :: seen)
      constructor
      · rw [List.map_cons, List.nodup_cons]
        exact ⟨fun hmem => (hdisj _ hmem) (List.mem_cons_self _ _), hnd⟩
      · intro y hy
        rw [List.map_cons, List.mem_cons] at hy
        rcases hy with rfl | hy
        · exact hr
        · exact fun hseen => hdisj y hy (List.mem_cons_of_mem _ hseen)

theorem dropDupYearAux_mem_year {P : Type} (y : Int) (l : List (WeatherRow P)) :
    ∀ (seen : List Int), y ∉ seen →
      (y ∈ (dropDupYearAux seen l).map WeatherRow.year ↔
        y ∈ l.map WeatherRow.year) := by
  induction l with
  | nil => intro seen _; exact Iff.rfl
  | cons r rs ih =>
    intro seen hy
    by_cases hr : r.year ∈ seen
    · have hry : r.year ≠ y := by rintro rfl; exact hy hr
      rw [dropDupYearAux, if_pos hr, List.map_cons, List.mem_cons, ih seen hy]
      constructor
      · exact Or.inr
      · rintro (h | h)
        · exact (hry h.symm).elim
        · exact h
    · rw [dropDupYearAux, if_neg hr, List.map_cons, List.map_cons,
        List.mem_cons, List.mem_cons]
      by_cases hry : y = r.year
      · simp [hry]
      · have hy2 : y ∉ r.year :: seen := by
          intro h
          rcases List.mem_cons.mp h with h | h
          · exact hry h
          · exact hy h
        rw [ih (r.year :: seen) hy2]

theorem dropDupYearAux_subset {P : Type} (l : List (WeatherRow P)) :
    ∀ (seen : List Int) (r : WeatherRow P), r ∈ dropDupYearAux seen l → r ∈ l := by
  induction l with
  | nil => intro _ _ h; cases h
  | cons x xs ih =>
    intro seen r h
    by_cases hx : x.year ∈ seen
    · rw [dropDupYearAux, if_pos hx] at h
      exact List.mem_cons_of_mem _ (ih seen r h)
    · rw [dropDupYearAux, if_neg hx] at h
      rcases List.mem_cons.mp h with rfl | h
      · exact List.mem_cons_self _ _
      · exact List.mem_cons_of_mem _ (ih _ r h)

theorem filter_year_length_one {P : Type} (l : List (WeatherRow P))
    (hnd : (l.map WeatherRow.year).Nodup) (y : Int)
    (hy : y ∈ l.map WeatherRow.year) :
    (l.filter (fun r => r.year == y)).length = 1 := by
  induction l with
  | nil => cases hy
  | cons r rs ih =>
    rw [List.map_cons, List.nodup_cons] at hnd
    rw [List.map_cons, List.mem_cons] at hy
    rcases hy with hy1 | hy
    · subst hy1
      have hpt : (r.year == r.year) = true := beq_self_eq_true _
      rw [List.filter_cons, hpt, if_pos rfl]
      have hnil : rs.filter (fun x => x.year == r.year) = [] := by
        rw [List.filter_eq_nil_iff]
        intro x hx
        simp only [beq_iff_eq]
        intro hxy
        exact hnd.1 (hxy ▸ List.mem_map_of_mem _ hx)
      rw [List.length_cons, hnil, List.length_nil]
    · have hne : (r.year == y) = false := by
        rw [beq_eq_false_iff_ne]
        rintro rfl
        exact hnd.1 hy
      rw [List.filter_cons, hne]
      exact ih hnd.2 hy

theorem get_weather_from_fastf1_some {P : Type} (s : Option (List P)) (year : Int)
    (b : List (WeatherRow P)) (h : get_weather_from_fastf1 s year = some b) :
    ∃ rows, s = some rows ∧ rows ≠ [] ∧ b = rows.map (WeatherRow.observed year) := by
  cases s with
  | none => cases h
  | some rows =>
    by_cases he : rows.isEmpty
    · simp only [get_weather_from_fastf1, if_pos he] at h
      cases h
    · simp only [get_weather_from_fastf1, if_neg he, Option.some.injEq] at h
      refine ⟨rows, rfl, ?_, h.symm⟩
      intro hnil
      rw [hnil] at he
      exact he rfl

theorem find_map_observed_of_ne {P : Type} (y z : Int) (hzy : z ≠ y) (rows : List P) :
    (rows.map (WeatherRow.observed z)).find? (fun r => r.year == y) = none := by
  rw [List.find?_eq_none]
  intro x hx
  rcases List.mem_map.mp hx with ⟨p, _, rfl⟩
  simp [WeatherRow.year, hzy]

theorem observed_find {P : Type} (env : Int → Option (List P)) (y : Int)
    (batch : List (WeatherRow P)) (years : List Int) (hy : y ∈ years)
    (hb : get_weather_from_fastf1 (env y) y = some batch) :
    ∃ p, ((years.filterMap (fun z => get_weather_from_fastf1 (env z) z)).flatten).find?
      (fun r => r.year == y) = some (WeatherRow.observed y p) := by
  induction years with
  | nil => cases hy
  | cons z zs ih =>
    rw [List.filterMap_cons]
    by_cases hzy : z = y
    · subst hzy
      rw [hb]
      obtain ⟨rows, _, hne, hbatch⟩ := get_weather_from_fastf1_some _ _ _ hb
      subst hbatch
      cases rows with
      | nil => exact absurd rfl hne
      | cons p ps =>
        refine ⟨p, ?_⟩
        rw [List.flatten_cons, List.map_cons, List.cons_append]
        have hpt : ((WeatherRow.observed z p : WeatherRow P).year == z) = true :=
          beq_self_eq_true _
        simp only [List.find?, hpt]
    · have hy2 : y ∈ zs := by
        rcases List.mem_cons.mp hy with h | h
        · exact absurd h.symm hzy
        · exact h
      cases hgz : get_weather_from_fastf1 (env z) z with
      | none => exact ih hy2
      | some bz =>
        obtain ⟨rowsz, _, _, hbz⟩ := get_weather_from_fastf1_some _ _ _ hgz
        subst hbz
        obtain ⟨p, hp⟩ := ih hy2
        refine ⟨p, ?_⟩
        rw [List.flatten_cons,
          find_append_second _ _ _ (find_map_observed_of_ne y z hzy rowsz), hp]

theorem observed_flatten_year {P : Type} (env : Int → Option (List P)) (years : List Int)
    (r : WeatherRow P)
    (h : r ∈ (years.filterMap (fun z => get_weather_from_fastf1 (env z) z)).flatten) :
    WeatherRow.year r ∈ years := by
  induction years with
  | nil => simp only [List.filterMap_nil, List.flatten_nil] at h; cases h
  | cons z zs ih =>
    rw [List.filterMap_cons] at h
    cases hgz : get_weather_from_fastf1 (env z) z with
    | none =>
      rw [hgz] at h
      exact List.mem_cons_of_mem _ (ih h)
    | some bz =>
      rw [hgz, List.flatten_cons, List.mem_append] at h
      rcases h with h | h
      · obtain ⟨rows, _, _, hbz⟩ := get_weather_from_fastf1_some _ _ _ hgz
        subst hbz
        rcases List.mem_map.mp h with ⟨p, _, rfl⟩
        exact List.mem_cons_self _ _
      · exact List.mem_cons_of_mem _ (ih h)

theorem create_find {σ : Type} (g : RNG σ) (y : Int) (years : List Int) (hy : y ∈ years) :
    (create_synthetic_weather_data g years).find? (fun r => r.Year == y) =
      some (mkSyntheticRecord g y) := by
  induction years with
  | nil => cases hy
  | cons z zs ih =>
    rw [create_synthetic_weather_data, List.map_cons]
    by_cases hzy : z = y
    · subst hzy
      have hpt : ((mkSyntheticRecord g z).Year == z) = true := beq_self_eq_true _
      simp only [List.find?, hpt]
    · have hy2 : y ∈ zs := by
        rcases List.mem_cons.mp hy with h | h
        · exact absurd h.symm hzy
        · exact h
      have hne : ((mkSyntheticRecord g z).Year == y) = false :=
        beq_eq_false_iff_ne.mpr hzy
      simp only [List.find?, hne]
      exact ih hy2

theorem isLowerAscii_ofNat_upper (m : ℕ) (hlb : 65 ≤ m) (hub : m ≤ 90) :
    isLowerAscii (Char.ofNat m) = false := by
  interval_cases m <;> decide

theorem isLowerAscii_pyCharUpper (c : Char) : isLowerAscii (pyCharUpper c) = false := by
  show isLowerAscii
    (if c.toNat ≥ 97 ∧ c.toNat ≤ 122 then Char.ofNat (c.toNat - 32) else c) = false
  by_cases h : c.toNat ≥ 97 ∧ c.toNat ≤ 122
  · rw [if_pos h]
    exact isLowerAscii_ofNat_upper _ (by omega) (by omega)
  · rw [if_neg h]
    simp only [isLowerAscii, Bool.and_eq_false_iff, decide_eq_false_iff_not]
    omega

theorem hasLowerAscii_py_upper (s : String) : hasLowerAscii (py_upper s) = false := by
  simp only [hasLowerAscii, py_upper, List.any_eq_false]
  intro c hc
  rcases List.mem_map.mp hc with ⟨c0, _, rfl⟩
  simp [isLowerAscii_pyCharUpper]

theorem finalizeCollector_empty :
    finalizeCollector [] = ⟨[], false, none⟩ := rfl

theorem finalizeCollector_records (records : List PyRecord) :
    (finalizeCollector records).records = records := by
  rw [finalizeCollector]
  by_cases h : records.isEmpty
  · rw [if_pos h]
  · rw [if_neg h]

theorem finalizeCollector_of_nil (records : List PyRecord) (h : records = []) :
    (finalizeCollector records).wrote = false ∧
    (finalizeCollector records).result = none := by
  subst h
  exact ⟨rfl, rfl⟩

theorem load_model_and_data_some_inv {M S E : Type} (a : ArtifactStore M S E)
    (d : ModelData M S E) (h : load_model_and_data a = some d) :
    a.best_model = some d.model ∧ a.feature_scaler = some d.scaler ∧
    a.label_encoders = some d.label_encoders ∧
    a.predictions = some d.predictions ∧
    a.feature_importance = some d.feature_importance ∧
    ∃ rest, a.summary = some (d.summary :: rest) := by
  cases hbm : a.best_model with
  | none => rw [load_model_and_data, hbm] at h; cases h
  | some model =>
  cases hfs : a.feature_scaler with
  | none => rw [load_model_and_data, hbm, hfs] at h; cases h
  | some scaler =>
  cases hle : a.label_encoders with
  | none => rw [load_model_and_data, hbm, hfs, hle] at h; cases h
  | some encoders =>
  cases hp : a.predictions with
  | none => rw [load_model_and_data, hbm, hfs, hle, hp] at h; cases h
  | some preds =>
  cases hfi : a.feature_importance with
  | none => rw [load_model_and_data, hbm, hfs, hle, hp, hfi] at h; cases h
  | some fi =>
  cases hs : a.summary with
  | none => rw [load_model_and_data, hbm, hfs, hle, hp, hfi, hs] at h; cases h
  | some srows =>
  cases srows with
  | nil => rw [load_model_and_data, hbm, hfs, hle, hp, hfi, hs] at h; cases h
  | cons s0 rest =>
    rw [load_model_and_data, hbm, hfs, hle, hp, hfi, hs] at h
    simp only [Option.bind_eq_bind, Option.some_bind, List.head?_cons, Option.pure_def,
      Option.some.injEq] at h
    subst h
    exact ⟨rfl, rfl, rfl, rfl, rfl, rest, rfl⟩

/-! ## Claim theorems -/

/-- C4: synthetic weather generation is deterministic per year — for a fixed
year, any two invocations of `create_synthetic_weather_data` whose year
lists contain that year produce the identical record for it (all numeric
fields and the condition string equal), because the generator is reseeded
with the year before drawing; the common value is `mkSyntheticRecord g y`. -/
theorem synthetic_deterministic_per_year (σ : Type) (g : RNG σ)
    (years1 years2 : List Int) (y : Int) (h1 : y ∈ years1) (h2 : y ∈ years2) :
    (create_synthetic_weather_data g years1).find? (fun r => r.Year == y) =
      (create_synthetic_weather_data g years2).find? (fun r => r.Year == y) ∧
    (create_synthetic_weather_data g years1).find? (fun r => r.Year == y) =
      some (mkSyntheticRecord g y) := by
  rw [create_find g y years1 h1, create_find g y years2 h2]
  exact ⟨rfl, rfl⟩

/-- Witness for C4 at the concrete generator `testRNG`, year lists `[2020]`
and `[2019, 2020]` and year 2020. -/
theorem synthetic_deterministic_per_year_witness :
    (create_synthetic_weather_data testRNG [2020]).find? (fun r => r.Year == 2020) =
      (create_synthetic_weather_data testRNG [2019, 2020]).find? (fun r => r.Year == 2020) ∧
    (create_synthetic_weather_data testRNG [2020]).find? (fun r => r.Year == 2020) =
      some (mkSyntheticRecord testRNG 2020) :=
  synthetic_deterministic_per_year Unit testRNG [2020] [2019, 2020] 2020
    (by decide) (by decide)

/-- C7: for every synthetic weather record, the `Weather_Condition` field is
derived from the precipitation and humidity drawn for that record by the
ordered thresholds (Rain if precipitation over 10, else Light Rain if over
2, else Humid if humidity over 85, else Clear); the stored
`Precipitation_mm` and `Humidity_Percent` fields of the record are the
one-decimal roundings of those same drawn values. -/
theorem synthetic_condition_thresholds (σ : Type) (g : RNG σ) (years : List Int)
    (r : WeatherRecord) (hr : r ∈ create_synthetic_weather_data g years) :
    r.Weather_Condition =
      (if (synthDraws g r.Year).precipitation > 10 then "Rain"
       else if (synthDraws g r.Year).precipitation > 2 then "Light Rain"
       else if (synthDraws g r.Year).humidity > 85 then "Humid"
       else "Clear") ∧
    r.Precipitation_mm = round1 (synthDraws g r.Year).precipitation ∧
    r.Humidity_Percent = round1 (synthDraws g r.Year).humidity := by
  rcases List.mem_map.mp hr with ⟨y, _, rfl⟩
  exact ⟨rfl, rfl, rfl⟩

/-- Witness for C7 at the concrete generator `testRNG` and year 2021. -/
theorem synthetic_condition_thresholds_witness :
    (mkSyntheticRecord testRNG 2021).Weather_Condition =
      (if (synthDraws testRNG 2021).precipitation > 10 then "Rain"
       else if (synthDraws testRNG 2021).precipitation > 2 then "Light Rain"
       else if (synthDraws testRNG 2021).humidity > 85 then "Humid"
       else "Clear") ∧
    (mkSyntheticRecord testRNG 2021).Precipitation_mm =
      round1 (synthDraws testRNG 2021).precipitation ∧
    (mkSyntheticRecord testRNG 2021).Humidity_Percent =
      round1 (synthDraws testRNG 2021).humidity :=
  synthetic_condition_thresholds Unit testRNG [2021] (mkSyntheticRecord testRNG 2021)
    (List.mem_singleton.mpr rfl)

/-- C6 (amended): for every outcome of the single network request,
`make_request` issues exactly one request, never raises to the caller and
never retries; on an HTTP success it waits the fixed 0.5 second delay and
returns the parsed body (null if the body fails to parse, still after the
delay); on a transport or HTTP-status error it returns null without
having waited the delay. -/
theorem make_request_contract :
    (∀ body : Json, make_request (.success (some body)) = ⟨some body, 1, 1/2, false⟩) ∧
    (make_request (.success none) = ⟨none, 1, 1/2, false⟩) ∧
    (make_request .transportError = ⟨none, 1, 0, false⟩) ∧
    (∀ status : Nat, make_request (.httpError status) = ⟨none, 1, 0, false⟩) :=
  ⟨fun _ => rfl, rfl, rfl, fun _ => rfl⟩

/-- C6 counterexample: on a transport error (including timeout) the fixed
0.5 second post-request delay is not performed, so the claim that
`make_request` waits a fixed delay after every request is false. -/
theorem make_request_no_delay_on_transport_error :
    (make_request .transportError).sleptSeconds = 0 ∧ (0 : ℚ) ≠ 1/2 :=
  ⟨rfl, by norm_num⟩

theorem map_finalize_ok_inv (x : Except String (List PyRecord)) (out : CollectorResult)
    (h : x.map finalizeCollector = .ok out) :
    ∃ recs, x = .ok recs ∧ out = finalizeCollector recs := by
  cases x with
  | error e =>
    simp only [Except.map] at h
    cases h
  | ok recs =>
    simp only [Except.map, Except.ok.injEq] at h
    exact ⟨recs, rfl, h.symm⟩

theorem collector_zero_records_no_write (x : Except String (List PyRecord))
    (out : CollectorResult) (h : x.map finalizeCollector = .ok out)
    (hrec : out.records = []) : out.wrote = false ∧ out.result = none := by
  obtain ⟨recs, _, rfl⟩ := map_finalize_ok_inv x out h
  rw [finalizeCollector_records] at hrec
  subst hrec
  exact ⟨rfl, rfl⟩

theorem collect_weather_data_observedBatches (σ P : Type) (g : RNG σ)
    (env : Int → Option (List P)) (years : List Int) (uf us : Bool) :
    (collect_weather_data g env years uf us).observedBatches =
      observedWeatherBatches env years uf := by
  simp only [collect_weather_data]
  split <;> rfl

theorem collect_weather_data_syntheticBatch (σ P : Type) (g : RNG σ)
    (env : Int → Option (List P)) (years : List Int) (uf us : Bool) :
    (collect_weather_data g env years uf us).syntheticBatch =
      syntheticWeatherBatch g years (observedWeatherBatches env years uf).length us := by
  simp only [collect_weather_data]
  split <;> rfl

/-- C5 (amended): a collector that accumulated zero records returns a null
result and does not write its output file — this holds for the Singapore
results, driver standings, constructor standings and season schedules
collectors over every upstream behaviour, for the circuits collector
whenever its single request fails, and for the weather collector whenever
both phases produced nothing.  (The circuits collector does not satisfy
the general zero-records version: see the counterexample, where a
successful response with zero circuits still writes an empty file.) -/
theorem collectors_empty_no_write (env : String → HttpOutcome) (years : List Int) :
    (∀ out, collect_singapore_gp_results env = .ok out → out.records = [] →
      out.wrote = false ∧ out.result = none) ∧
    (∀ out, collect_driver_standings years env = .ok out → out.records = [] →
      out.wrote = false ∧ out.result = none) ∧
    (∀ out, collect_constructor_standings years env = .ok out → out.records = [] →
      out.wrote = false ∧ out.result = none) ∧
    (∀ out, collect_season_schedules years env = .ok out → out.records = [] →
      out.wrote = false ∧ out.result = none) ∧
    ((make_request (env "circuits")).result = none →
      collect_circuit_info env = .ok ⟨[], false, none⟩) ∧
    (∀ (σ P : Type) (g : RNG σ) (fenv : Int → Option (List P)) (uf us : Bool),
      (collect_weather_data g fenv years uf us).observedBatches = [] →
      (collect_weather_data g fenv years uf us).syntheticBatch = none →
      (collect_weather_data g fenv years uf us).result = none ∧
      (collect_weather_data g fenv years uf us).wrote = false) := by
  refine ⟨?_, ?_, ?_, ?_, ?_, ?_⟩
  · intro out h hrec
    exact collector_zero_records_no_write _ out h hrec
  · intro out h hrec
    exact collector_zero_records_no_write _ out h hrec
  · intro out h hrec
    exact collector_zero_records_no_write _ out h hrec
  · intro out h hrec
    exact collector_zero_records_no_write _ out h hrec
  · intro h
    simp only [collect_circuit_info, h, ergastGuard]
    rfl
  · intro σ P g fenv uf us h1 h2
    rw [collect_weather_data_observedBatches] at h1
    rw [collect_weather_data_syntheticBatch, h1] at h2
    simp only [List.length_nil] at h2
    constructor <;> simp [collect_weather_data, h1, h2]

/-- C5 counterexample: over an upstream behaviour whose circuits response
succeeds but contains zero circuits, the circuits collector accumulates
zero records yet still creates/overwrites its output file (writing an
empty table) and returns an empty (non-null) dataframe. -/
theorem circuits_writes_file_on_zero_records :
    collect_circuit_info circuitsEmptyEnv = .ok ⟨[], true, some []⟩ := rfl

/-- Witness for C5: over the all-transport-failure behaviour the driver
standings collector accumulates zero records, and the theorem yields that
it did not write and returned null. -/
theorem collectors_empty_no_write_witness :
    collect_driver_standings (pyRange 2015 2025) allFailEnv = .ok ⟨[], false, none⟩ ∧
    ((⟨[], false, none⟩ : CollectorResult).wrote = false ∧
      (⟨[], false, none⟩ : CollectorResult).result = none) :=
  ⟨rfl, (collectors_empty_no_write allFailEnv (pyRange 2015 2025)).2.1
    ⟨[], false, none⟩ rfl rfl⟩

theorem except_bind_ok {α β : Type} (a : α) (f : α → Except String β) :
    (Except.ok a >>= f) = f a := rfl

/-- C3 (amended): the orchestrator runs the collectors in the fixed order
(historical results, then weather, then richer per-race results, then
validation/summary); whenever the historical Ergast step raises no
exception the run completes all four steps in order, and in particular it
tolerates transport-level failure of every upstream request.  However the
orchestrator has no failure guard of its own: a collector exception — for
example the KeyError raised by a successfully parsed response whose
MRData lacks the expected RaceTable field — propagates and aborts the
whole run (see the counterexample), so the claim that it tolerates any
collector failure for every upstream behaviour is false. -/
theorem orchestrator_fixed_order_transport_tolerance (σ P Q : Type) (g : RNG σ)
    (f1w : Int → Option (List P)) (f1r : Int → Option (List Q)) :
    (∀ (env : String → HttpOutcome) (r : AllData), collect_all_data env = .ok r →
      ∃ out, run_data_collection_main env f1w f1r g = .ok out ∧
        out.trace = [.historical, .weather, .richerResults, .validation]) ∧
    (∃ out, run_data_collection_main allFailEnv f1w f1r g = .ok out ∧
      out.trace = [.historical, .weather, .richerResults, .validation]) := by
  have hmain : ∀ (env : String → HttpOutcome) (r : AllData), collect_all_data env = .ok r →
      ∃ out, run_data_collection_main env f1w f1r g = .ok out ∧
        out.trace = [.historical, .weather, .richerResults, .validation] := by
    intro env r h
    simp only [run_data_collection_main, h, except_bind_ok]
    exact ⟨_, rfl, rfl⟩
  refine ⟨hmain, ?_⟩
  exact hmain allFailEnv
    ⟨⟨[], false, none⟩, ⟨[], false, none⟩, ⟨[], false, none⟩,
      ⟨[], false, none⟩, ⟨[], false, none⟩⟩ rfl

/-- C3 counterexample: one upstream behaviour — a successfully parsed 2008
Singapore response whose MRData object has no RaceTable field — makes the
historical collector raise a KeyError that nothing catches, so the
orchestrator run aborts instead of proceeding to the next collector: not
every behaviour of the upstream responses is tolerated. -/
theorem orchestrator_fatal_on_malformed_response :
    run_data_collection_main malformedErgastEnv (fun _ => (none : Option (List Unit)))
      (fun _ => (none : Option (List Unit))) testRNG = .error "KeyError: RaceTable" := rfl

/-- Witness for C3 at concrete oracles: with every request failing at the
transport level the run completes and the four steps execute in the fixed
order. -/
theorem orchestrator_fixed_order_witness :
    ∃ out, run_data_collection_main allFailEnv (fun _ => (none : Option (List Unit)))
      (fun _ => (none : Option (List Unit))) testRNG = .ok out ∧
      out.trace = [.historical, .weather, .richerResults, .validation] :=
  (orchestrator_fixed_order_transport_tolerance Unit Unit Unit testRNG
    (fun _ => none) (fun _ => none)).2

/-- C9: if any of the startup artifacts is absent or fails to deserialize
(including a present but empty summary table, whose iloc access raises),
the process-wide snapshot is the unavailable sentinel, and then the
landing and driver pages render the error page, the predictions and
feature-importance JSON endpoints return HTTP 500 with an error body, and
the about route still serves (the routes are total functions, so the
process starts and no handler raises). -/
theorem dashboard_unavailable_state (M S E : Type) (a : ArtifactStore M S E)
    (code : String)
    (h : a.best_model = none ∨ a.feature_scaler = none ∨ a.label_encoders = none ∨
      a.predictions = none ∨ a.feature_importance = none ∨ a.summary = none ∨
      a.summary = some []) :
    load_model_and_data a = none ∧
    index (load_model_and_data a) = .errorPage modelDataNotFound ∧
    driver_detail (load_model_and_data a) code = .errorPage modelDataNotFound ∧
    api_predictions (load_model_and_data a) = .jsonError "Model data not found" 500 ∧
    api_feature_importance (load_model_and_data a) = .jsonError "Model data not found" 500 ∧
    about = .aboutPage := by
  have hnone : load_model_and_data a = none := by
    cases hl : load_model_and_data a with
    | none => rfl
    | some d =>
      obtain ⟨h1, h2, h3, h4, h5, rest, h6⟩ := load_model_and_data_some_inv a d hl
      rcases h with h | h | h | h | h | h | h
      · rw [h] at h1; cases h1
      · rw [h] at h2; cases h2
      · rw [h] at h3; cases h3
      · rw [h] at h4; cases h4
      · rw [h] at h5; cases h5
      · rw [h] at h6; cases h6
      · rw [h] at h6; simp at h6
  refine ⟨hnone, ?_, ?_, ?_, ?_, rfl⟩ <;> rw [hnone] <;> rfl

/-- Witness for C9: with every artifact absent the snapshot is the sentinel
and each route returns its defined unavailable response. -/
theorem dashboard_unavailable_state_witness :
    load_model_and_data emptyArtifacts = none ∧
    index (load_model_and_data emptyArtifacts) = .errorPage modelDataNotFound ∧
    driver_detail (load_model_and_data emptyArtifacts) "VER" = .errorPage modelDataNotFound ∧
    api_predictions (load_model_and_data emptyArtifacts) =
      .jsonError "Model data not found" 500 ∧
    api_feature_importance (load_model_and_data emptyArtifacts) =
      .jsonError "Model data not found" 500 ∧
    about = .aboutPage :=
  dashboard_unavailable_state Unit Unit Unit emptyArtifacts "VER" (Or.inl rfl)

/-- C8: the driver-detail lookup is case-insensitive — two inputs with equal
uppercasings filter to the same rows and, when a matching row exists,
render the identical page — and a code matching no row in the predictions
table renders the not-found error view rather than raising (the route is
a total function).  The not-found error text echoes the raw input, which
is the only part of the response depending on the input case. -/
theorem driver_detail_case_insensitive (M S E : Type) (d : ModelData M S E)
    (c1 c2 code : String) :
    (py_upper c1 = py_upper c2 →
      driver_lookup d.predictions c1 = driver_lookup d.predictions c2) ∧
    (py_upper c1 = py_upper c2 → driver_lookup d.predictions c1 ≠ [] →
      driver_detail (some d) c1 = driver_detail (some d) c2) ∧
    (driver_lookup d.predictions code = [] →
      driver_detail (some d) code =
        .errorPage ("Driver " ++ code ++ " not found in predictions.")) := by
  have hlk : ∀ a b : String, py_upper a = py_upper b →
      driver_lookup d.predictions a = driver_lookup d.predictions b := by
    intro a b hab
    simp only [driver_lookup, hab]
  refine ⟨hlk c1 c2, ?_, ?_⟩
  · intro hab hne
    rw [hlk c1 c2 hab] at hne
    cases hl : driver_lookup d.predictions c2 with
    | nil => exact absurd hl hne
    | cons info rest => simp only [driver_detail, hlk c1 c2 hab, hl]
  · intro h
    simp only [driver_detail, h]

/-- Witness for C8: on a one-row table with driver code VER, the inputs
"ver" and "VER" resolve identically and an absent code renders the
not-found error view. -/
theorem driver_detail_case_insensitive_witness :
    (driver_lookup sampleModelData.predictions "ver" =
      driver_lookup sampleModelData.predictions "VER") ∧
    (driver_detail (some sampleModelData) "ver" =
      driver_detail (some sampleModelData) "VER") ∧
    (driver_detail (some sampleModelData) "xxx" =
      .errorPage ("Driver " ++ "xxx" ++ " not found in predictions.")) := by
  have h := driver_detail_case_insensitive Unit Unit Unit sampleModelData "ver" "VER" "xxx"
  exact ⟨h.1 (by decide), h.2.1 (by decide) (by decide), h.2.2 (by decide)⟩

/-- C10: the driver route compares the uppercased input against the stored
Driver column verbatim, so a predictions row whose Driver value contains
an ASCII lowercase letter is unreachable — no input code renders it, and
when every row of the table has such a Driver value the route always
falls through to the not-found error view. -/
theorem lowercase_driver_rows_unreachable (M S E : Type) (d : ModelData M S E)
    (code : String) (row : PredRow) (hrow : hasLowerAscii row.Driver = true) :
    driver_detail (some d) code ≠ .driverPage row ∧
    ((∀ r ∈ d.predictions, hasLowerAscii r.Driver = true) →
      driver_detail (some d) code =
        .errorPage ("Driver " ++ code ++ " not found in predictions.")) := by
  constructor
  · intro heq
    cases hl : driver_lookup d.predictions code with
    | nil =>
      simp only [driver_detail, hl] at heq
      cases heq
    | cons info rest =>
      simp only [driver_detail, hl] at heq
      injection heq with hir
      have hmem : info ∈ driver_lookup d.predictions code := by
        rw [hl]
        exact List.mem_cons_self _ _
      simp only [driver_lookup] at hmem
      have hdr : info.Driver = py_upper code :=
        beq_iff_eq.mp (List.mem_filter.mp hmem).2
      rw [← hir, hdr, hasLowerAscii_py_upper] at hrow
      cases hrow
  · intro hall
    have hl : driver_lookup d.predictions code = [] := by
      simp only [driver_lookup]
      rw [List.filter_eq_nil_iff]
      intro r hr
      simp only [beq_iff_eq]
      intro hdr
      have hfalse := hall r hr
      rw [hdr, hasLowerAscii_py_upper] at hfalse
      cases hfalse
    simp only [driver_detail, hl]

/-- Witness for C10: on a table whose only row has Driver value "Ver", the
input "ver" does not render that row and falls through to the not-found
error view. -/
theorem lowercase_driver_rows_unreachable_witness :
    driver_detail (some lowercaseModelData) "ver" ≠
      .driverPage ⟨"Ver", "Red Bull", 9/10⟩ ∧
    driver_detail (some lowercaseModelData) "ver" =
      .errorPage ("Driver " ++ "ver" ++ " not found in predictions.") := by
  have h := lowercase_driver_rows_unreachable Unit Unit Unit lowercaseModelData "ver"
    ⟨"Ver", "Red Bull", 9/10⟩ (by decide)
  exact ⟨h.1, h.2 (by decide)⟩

theorem collect_weather_data_result_inv (σ P : Type) (g : RNG σ)
    (env : Int → Option (List P)) (years : List Int) (uf us : Bool)
    (rows : List (WeatherRow P))
    (h : (collect_weather_data g env years uf us).result = some rows) :
    rows = dropDuplicatesByYear
      (((observedWeatherBatches env years uf) ++
        ((syntheticWeatherBatch g years (observedWeatherBatches env years uf).length us).map
          (fun b => [b])).getD []).flatten) := by
  simp only [collect_weather_data] at h
  split at h
  · simp at h
  · dsimp only at h
    injection h with h2
    exact h2.symm

theorem collect_weather_data_result_some (σ P : Type) (g : RNG σ)
    (env : Int → Option (List P)) (years : List Int) (uf us : Bool)
    (b : List (WeatherRow P))
    (hb : syntheticWeatherBatch g years
      (observedWeatherBatches env years uf).length us = some b) :
    (collect_weather_data g env years uf us).result =
      some (dropDuplicatesByYear
        ((observedWeatherBatches env years uf) ++ [b]).flatten) := by
  simp only [collect_weather_data, hb, Option.map_some', Option.getD_some]
  rw [if_neg]
  intro hcon
  rw [List.isEmpty_iff] at hcon
  exact List.append_ne_nil_of_right_ne_nil _ (by simp) hcon

theorem syntheticWeatherBatch_some_inv (σ P : Type) (g : RNG σ) (years : List Int)
    (n : Nat) (us : Bool) (b : List (WeatherRow P))
    (hb : syntheticWeatherBatch g years n us = some b) :
    b = (create_synthetic_weather_data g years).map WeatherRow.synthetic := by
  rw [syntheticWeatherBatch] at hb
  split at hb
  · injection hb with h2
    exact h2.symm
  · cases hb

/-- C2: with the default flags, `collect_weather_data` generates a synthetic
batch exactly when the number of years with observed data is strictly
less than half the number of requested years (the source test
`len(all_weather_data) < len(years) * 0.5` over integers); when
triggered, the batch holds a record for every requested year, and the
final table then has exactly one row per requested year and rows only for
requested years; when not triggered no synthetic record is generated. -/
theorem weather_synthesis_coverage (σ P : Type) (g : RNG σ)
    (env : Int → Option (List P)) (years : List Int) :
    ((collect_weather_data g env years true true).syntheticBatch.isSome ↔
      2 * (years.filterMap (fun y => get_weather_from_fastf1 (env y) y)).length <
        years.length) ∧
    (∀ b, (collect_weather_data g env years true true).syntheticBatch = some b →
      ∀ y ∈ years, ∃ r ∈ b, WeatherRow.year r = y) ∧
    ((collect_weather_data g env years true true).syntheticBatch.isSome →
      ∃ rows, (collect_weather_data g env years true true).result = some rows ∧
        (∀ y ∈ years, (rows.filter (fun r => r.year == y)).length = 1) ∧
        (∀ r ∈ rows, WeatherRow.year r ∈ years)) := by
  have hobs : observedWeatherBatches env years true =
      years.filterMap (fun y => get_weather_from_fastf1 (env y) y) := by
    simp [observedWeatherBatches]
  refine ⟨?_, ?_, ?_⟩
  · rw [collect_weather_data_syntheticBatch, hobs]
    simp only [syntheticWeatherBatch, Bool.true_and]
    by_cases hc : 2 * (years.filterMap (fun y => get_weather_from_fastf1 (env y) y)).length <
        years.length
    · simp [hc]
    · simp [hc]
  · intro b hb y hy
    rw [collect_weather_data_syntheticBatch] at hb
    have hbval := syntheticWeatherBatch_some_inv σ P g years _ true b hb
    subst hbval
    refine ⟨WeatherRow.synthetic (mkSyntheticRecord g y), ?_, rfl⟩
    exact List.mem_map_of_mem _ (List.mem_map_of_mem _ hy)
  · intro hsb
    rw [collect_weather_data_syntheticBatch] at hsb
    obtain ⟨b, hb⟩ := Option.isSome_iff_exists.mp hsb
    have hbval := syntheticWeatherBatch_some_inv σ P g years _ true b hb
    have hres := collect_weather_data_result_some σ P g env years true true b hb
    refine ⟨_, hres, ?_, ?_⟩
    · intro y hy
      have hynd := (dropDupYearAux_nodup
        ((observedWeatherBatches env years true ++ [b]).flatten) []).1
      have hmemy : y ∈ ((observedWeatherBatches env years true ++ [b]).flatten).map
          WeatherRow.year := by
        have hmb : WeatherRow.synthetic (mkSyntheticRecord g y) ∈ b := by
          rw [hbval]
          exact List.mem_map_of_mem _ (List.mem_map_of_mem _ hy)
        have hmfl : WeatherRow.synthetic (mkSyntheticRecord g y) ∈
            (observedWeatherBatches env years true ++ [b]).flatten := by
          rw [List.flatten_append, List.flatten_cons, List.flatten_nil, List.append_nil]
          exact List.mem_append_right _ hmb
        exact List.mem_map_of_mem _ hmfl
      have hmemy2 := (dropDupYearAux_mem_year y
        ((observedWeatherBatches env years true ++ [b]).flatten) []
        (by simp)).mpr hmemy
      exact filter_year_length_one _ hynd y hmemy2
    · intro r hr
      have hrfl := dropDupYearAux_subset
        ((observedWeatherBatches env years true ++ [b]).flatten) [] r hr
      rw [List.flatten_append, List.flatten_cons, List.flatten_nil, List.append_nil,
        List.mem_append] at hrfl
      rcases hrfl with hrfl | hrfl
      · rw [hobs] at hrfl
        exact observed_flatten_year env years r hrfl
      · rw [hbval] at hrfl
        rcases List.mem_map.mp hrfl with ⟨rec, hrec, rfl⟩
        rcases List.mem_map.mp hrec with ⟨y2, hy2, rfl⟩
        exact hy2

/-- Witness for C2 at concrete inputs: years [2020, 2021, 2022] with only
2020 observed (coverage one third), so synthesis triggers and the final
table has exactly one row per requested year. -/
theorem weather_synthesis_coverage_witness :
    (collect_weather_data testRNG obs2020Env [2020, 2021, 2022] true true).syntheticBatch.isSome ∧
    ∃ rows,
      (collect_weather_data testRNG obs2020Env [2020, 2021, 2022] true true).result =
        some rows ∧
      (∀ y ∈ [(2020 : Int), 2021, 2022], (rows.filter (fun r => r.year == y)).length = 1) ∧
      (∀ r ∈ rows, WeatherRow.year r ∈ [(2020 : Int), 2021, 2022]) := by
  have h := weather_synthesis_coverage Unit Unit testRNG obs2020Env [2020, 2021, 2022]
  have htrig : (collect_weather_data testRNG obs2020Env
      [2020, 2021, 2022] true true).syntheticBatch.isSome := by
    rw [h.1]
    decide
  exact ⟨htrig, h.2.2 htrig⟩

/-- C1 (amended): every reconciliation run that returns a table contains
exactly one record per Year (the mapped Year column has no duplicates);
and for any year with both an observed candidate and a synthetic
candidate, the surviving record for that year is the observed one
(observed frames are concatenated before the synthetic frame and
deduplication by Year keeps the first occurrence).  Its source tag is
absent (None/NaN): the code tags only synthetic rows, with the value
Synthetic, so no record ever carries a Source tag equal to the literal
"observed" — see the counterexample. -/
theorem weather_reconciliation_one_per_year (σ P : Type) (g : RNG σ)
    (env : Int → Option (List P)) (years : List Int) (uf us : Bool)
    (rows : List (WeatherRow P))
    (hrows : (collect_weather_data g env years uf us).result = some rows) :
    (rows.map WeatherRow.year).Nodup ∧
    (∀ y batch, uf = true → y ∈ years →
      get_weather_from_fastf1 (env y) y = some batch →
      (collect_weather_data g env years uf us).syntheticBatch.isSome →
      ∃ p, rows.find? (fun r => r.year == y) = some (WeatherRow.observed y p) ∧
        (WeatherRow.observed y p : WeatherRow P).dataSource = none) := by
  have hrv := collect_weather_data_result_inv σ P g env years uf us rows hrows
  constructor
  · rw [hrv]
    exact (dropDupYearAux_nodup _ []).1
  · intro y batch huf hy hget _
    subst huf
    have hobs : observedWeatherBatches env years true =
        years.filterMap (fun z => get_weather_from_fastf1 (env z) z) := by
      simp [observedWeatherBatches]
    obtain ⟨p, hp⟩ := observed_find env y batch years hy hget
    refine ⟨p, ?_, rfl⟩
    rw [hrv, dropDuplicatesByYear, dropDupYearAux_find y _ [] (by simp),
      List.flatten_append, find_append_first _ _ _ _ (by rw [hobs]; exact hp)]

/-- C1 counterexample: a concrete run in which 2020 has both an observed
candidate and a synthetic candidate; the surviving record for 2020 is the
observed row, and its Data_Source tag is absent (None/NaN), not the
literal value "observed". -/
theorem weather_survivor_tag_not_observed :
    get_weather_from_fastf1 (obs2020Env 2020) 2020 = some [WeatherRow.observed 2020 ()] ∧
    (collect_weather_data testRNG obs2020Env
      [2020, 2021, 2022] true true).syntheticBatch.isSome = true ∧
    ((collect_weather_data testRNG obs2020Env [2020, 2021, 2022] true true).result.map
      (fun rows => rows.find? (fun r => r.year == 2020))) =
      some (some (WeatherRow.observed 2020 ())) ∧
    (WeatherRow.observed 2020 () : WeatherRow Unit).dataSource ≠ some "observed" := by
  refine ⟨rfl, rfl, rfl, ?_⟩
  simp [WeatherRow.dataSource]

/-- Witness for C1 at the same concrete run: the returned table has
pairwise-distinct years and the surviving 2020 record is the observed
row with an absent source tag. -/
theorem weather_reconciliation_one_per_year_witness :
    (c1Rows.map WeatherRow.year).Nodup ∧
    ∃ p, c1Rows.find? (fun r => r.year == 2020) = some (WeatherRow.observed 2020 p) ∧
      (WeatherRow.observed 2020 p : WeatherRow Unit).dataSource = none := by
  have h := weather_reconciliation_one_per_year Unit Unit testRNG obs2020Env
    [2020, 2021, 2022] true true c1Rows rfl
  exact ⟨h.1, h.2 2020 [WeatherRow.observed 2020 ()] rfl (by decide) rfl rfl⟩
